import Mathlib

/-!
Verification of the Aether OS Python SDK (sdk-python/aether): the response
normalization layer (client.py / async_client.py, method handle_response),
the login and header logic, the filesystem path encoding (namespaces.py),
and the Server-Sent-Events record reader (events.py, subscribe_events).

Python values parsed from JSON bodies are embedded as the inductive type
Json below.  Python dictionaries obtained from json.loads are embedded as
association lists; lookup takes the last binding for a key, matching the
dict construction order of json.loads where a later duplicate key wins.
-/

/-- JSON values as produced by json.loads.  Numbers are restricted to
integers: no claim involves fractional numbers, and floating point is out
of scope of the embedding. -/
inductive Json where
  | null
  | bool (b : Bool)
  | num (n : Int)
  | str (s : String)
  | arr (elems : List Json)
  | obj (fields : List (String × Json))

/-- Python dict lookup (d.get(k)) on an association list built by
json.loads: the last binding for the key wins. -/
def dictGet (kvs : List (String × Json)) (k : String) : Option Json :=
  match kvs with
  | [] => none
  | (k2, v) :: rest =>
    match dictGet rest k with
    | some v2 => some v2
    | none => if k2 = k then some v else none

/-- Python truthiness of a JSON-derived value: None, False, 0, the empty
string, the empty list and the empty dict are falsy. -/
def Json.truthy : Json → Bool
  | .null => false
  | .bool b => b
  | .num n => decide (n ≠ 0)
  | .str s => decide (s ≠ "")
  | .arr xs => !xs.isEmpty
  | .obj kvs => !kvs.isEmpty

/-! ### A model of json.loads

A recursive-descent parser over character lists, with fuel for the
nesting recursion.  It covers the JSON grammar as accepted by the Python
standard library json.loads, restricted to integer numbers (a fraction or
an exponent makes the parse fail in the model) and without surrogate-pair
combination for \uXXXX escapes.  No input used in the development below
touches either restriction. -/

/-- Skip JSON whitespace. -/
def skipWs : List Char → List Char
  | c :: rest =>
    if c = ' ' ∨ c = '\t' ∨ c = '\n' ∨ c = '\r' then skipWs rest else c :: rest
  | [] => []

/-- Split a leading run of decimal digits from the rest. -/
def takeDigits : List Char → List Char × List Char
  | c :: rest =>
    if c.isDigit then
      let p := takeDigits rest
      (c :: p.1, p.2)
    else ([], c :: rest)
  | [] => ([], [])

/-- Decimal value of a digit string. -/
def digitsToNat (ds : List Char) : Nat :=
  ds.foldl (fun a c => a * 10 + (c.toNat - 48)) 0

/-- Value of a hexadecimal digit, if any. -/
def hexVal (c : Char) : Option Nat :=
  if '0' ≤ c ∧ c ≤ '9' then some (c.toNat - 48)
  else if 'a' ≤ c ∧ c ≤ 'f' then some (c.toNat - 87)
  else if 'A' ≤ c ∧ c ≤ 'F' then some (c.toNat - 55)
  else none

/-- Parse the body of a JSON string after the opening quote, returning the
decoded characters and the input after the closing quote.  Fuel decreases
on every consumed character. -/
def parseStringChars (fuel : Nat) (cs : List Char) : Option (List Char × List Char) :=
  match fuel with
  | 0 => none
  | fuel + 1 =>
    match cs with
    | [] => none
    | c :: rest =>
      if c = '"' then some ([], rest)
      else if c = '\\' then
        match rest with
        | [] => none
        | e :: rest2 =>
          let esc : Option (Char × List Char) :=
            if e = '"' then some ('"', rest2)
            else if e = '\\' then some ('\\', rest2)
            else if e = '/' then some ('/', rest2)
            else if e = 'n' then some ('\n', rest2)
            else if e = 't' then some ('\t', rest2)
            else if e = 'r' then some ('\r', rest2)
            else if e = 'b' then some (Char.ofNat 8, rest2)
            else if e = 'f' then some (Char.ofNat 12, rest2)
            else if e = 'u' then
              match rest2 with
              | h1 :: h2 :: h3 :: h4 :: rest3 =>
                match hexVal h1, hexVal h2, hexVal h3, hexVal h4 with
                | some v1, some v2, some v3, some v4 =>
                  some (Char.ofNat (((v1 * 16 + v2) * 16 + v3) * 16 + v4), rest3)
                | _, _, _, _ => none
              | _ => none
            else none
          match esc with
          | some (ch, r) =>
            match parseStringChars fuel r with
            | some (s, rr) => some (ch :: s, rr)
            | none => none
          | none => none
      else if c.toNat < 32 then none
      else
        match parseStringChars fuel rest with
        | some (s, rr) => some (c :: s, rr)
        | none => none

/-- Parse a JSON number (integers only; a following dot or exponent makes
the parse fail, see the module comment). -/
def parseNum (cs : List Char) : Option (Json × List Char) :=
  let p := match cs with
    | '-' :: r => (true, r)
    | _ => (false, cs)
  match p.2 with
  | c :: _ =>
    if c.isDigit then
      let d := takeDigits p.2
      if d.1.length > 1 ∧ d.1.headD '0' = '0' then none
      else
        match d.2 with
        | '.' :: _ => none
        | 'e' :: _ => none
        | 'E' :: _ => none
        | _ =>
          let n : Int := Int.ofNat (digitsToNat d.1)
          some (.num (if p.1 then -n else n), d.2)
    else none
  | [] => none

mutual

/-- Parse one JSON value at the head of the input (leading whitespace
already skipped), returning the value and the rest of the input. -/
def parseValue (fuel : Nat) (cs : List Char) : Option (Json × List Char) :=
  match fuel with
  | 0 => none
  | fuel + 1 =>
    match cs with
    | 'n' :: 'u' :: 'l' :: 'l' :: rest => some (.null, rest)
    | 't' :: 'r' :: 'u' :: 'e' :: rest => some (.bool true, rest)
    | 'f' :: 'a' :: 'l' :: 's' :: 'e' :: rest => some (.bool false, rest)
    | '"' :: rest =>
      match parseStringChars (rest.length + 1) rest with
      | some (s, rest2) => some (.str (String.mk s), rest2)
      | none => none
    | '[' :: rest =>
      match skipWs rest with
      | ']' :: rest2 => some (.arr [], rest2)
      | rest2 =>
        match parseArrItems fuel rest2 with
        | some (js, rest3) => some (.arr js, rest3)
        | none => none
    | '{' :: rest =>
      match skipWs rest with
      | '}' :: rest2 => some (.obj [], rest2)
      | rest2 =>
        match parseObjItems fuel rest2 with
        | some (kvs, rest3) => some (.obj kvs, rest3)
        | none => none
    | c :: _ => if c = '-' ∨ c.isDigit then parseNum cs else none
    | [] => none

/-- Parse the items of a non-empty JSON array, after the opening bracket,
up to and including the closing bracket. -/
def parseArrItems (fuel : Nat) (cs : List Char) : Option (List Json × List Char) :=
  match fuel with
  | 0 => none
  | fuel + 1 =>
    match parseValue fuel cs with
    | none => none
    | some (j, rest) =>
      match skipWs rest with
      | ',' :: rest2 =>
        match parseArrItems fuel (skipWs rest2) with
        | some (js, r) => some (j :: js, r)
        | none => none
      | ']' :: rest2 => some ([j], rest2)
      | _ => none

/-- Parse the fields of a non-empty JSON object, after the opening brace,
up to and including the closing brace. -/
def parseObjItems (fuel : Nat) (cs : List Char) : Option (List (String × Json) × List Char) :=
  match fuel with
  | 0 => none
  | fuel + 1 =>
    match cs with
    | '"' :: rest =>
      match parseStringChars (rest.length + 1) rest with
      | some (k, rest2) =>
        match skipWs rest2 with
        | ':' :: rest3 =>
          match parseValue fuel (skipWs rest3) with
          | some (v, rest4) =>
            match skipWs rest4 with
            | ',' :: rest5 =>
              match parseObjItems fuel (skipWs rest5) with
              | some (kvs, r) => some ((String.mk k, v) :: kvs, r)
              | none => none
            | '}' :: rest5 => some ([(String.mk k, v)], rest5)
            | _ => none
          | none => none
        | _ => none
      | none => none
    | _ => none

end

/-- Model of json.loads on a character list: one JSON value surrounded by
optional whitespace, nothing else.  Returns none where json.loads raises
json.JSONDecodeError. -/
def decodeJsonChars (cs : List Char) : Option Json :=
  match parseValue (cs.length + 2) (skipWs cs) with
  | some (j, rest) => if skipWs rest = [] then some j else none
  | none => none

/-- Model of json.loads on a string (used for response bodies). -/
def decodeJson (s : String) : Option Json :=
  decodeJsonChars s.data

/-! ### Response normalization (client.py and async_client.py,
AetherClient.handle_response and AetherAsyncClient.handle_response,
whose bodies are identical) -/

/-- An HTTP response as consumed by the normalizer: status code, reason
phrase, and the raw body text. -/
structure Response where
  status : Nat
  reasonPhrase : String
  body : String

/-- httpx Response.is_success: a 2xx status code. -/
def is_success (status : Nat) : Bool :=
  decide (200 ≤ status ∧ status ≤ 299)

/-- Exceptions that can escape the normalization layer. -/
inductive PyExc where
  /-- AetherError(message, code=code, status=status) from exceptions.py.
  The message and code fields carry whatever JSON-derived value the
  source puts there (the source does not force them to be strings). -/
  | aether (message : Json) (code : Json) (status : Nat)
  /-- AttributeError: calling .get on a non-dict value. -/
  | attributeError
  /-- json.JSONDecodeError propagating out of response.json() on the
  success path (the source catches it only on the failure path). -/
  | jsonDecodeError

/-- The source expression
parsed.get("error", dict()).get(key) if isinstance(parsed, dict) else None:
yields None when the body did not parse or is not a dict; raises
AttributeError when the top-level "error" value exists but is not a
dict. -/
def error_lookup (parsed : Option Json) (key : String) : Except PyExc (Option Json) :=
  match parsed with
  | some (Json.obj kvs) =>
    match (dictGet kvs "error").getD (Json.obj []) with
    | Json.obj ekvs => .ok (dictGet ekvs key)
    | _ => .error .attributeError
  | _ => .ok none

/-- Python x or fallback on an optional JSON value against a fallback
string: the value stands when it is truthy, the fallback string
otherwise. -/
def py_or (x : Option Json) (fallback : String) : Json :=
  match x with
  | some v => if v.truthy then v else Json.str fallback
  | none => Json.str fallback

/-- The HTTP-level message fallback built by the source via an f-string. -/
def http_fallback_message (status : Nat) (reason : String) : String :=
  "HTTP " ++ toString status ++ ": " ++ reason

/-- The HTTP-level code fallback built by the source via an f-string. -/
def http_fallback_code (status : Nat) : String :=
  "HTTP_" ++ toString status

/-- AetherClient.handle_response / AetherAsyncClient.handle_response.  On
a non-2xx status, builds and raises an AetherError from the error
envelope with HTTP-level fallbacks: the message expression is evaluated
before the code expression, so an AttributeError raised there escapes
first.  On a 2xx status, parses the body (a decode failure propagates)
and unwraps a top-level "data" key when the body is a dict containing
one. -/
def handle_response (r : Response) : Except PyExc Json :=
  if is_success r.status = false then
    let parsed : Option Json := decodeJson r.body
    match error_lookup parsed "message" with
    | .error e => .error e
    | .ok msg =>
      match error_lookup parsed "code" with
      | .error e => .error e
      | .ok cd =>
        .error (.aether (py_or msg (http_fallback_message r.status r.reasonPhrase))
          (py_or cd (http_fallback_code r.status)) r.status)
  else
    match decodeJson r.body with
    | none => .error .jsonDecodeError
    | some data =>
      match data with
      | Json.obj kvs =>
        match dictGet kvs "data" with
        | some v => .ok v
        | none => .ok data
      | _ => .ok data

/-! ### Client state: bearer token, login, headers -/

/-- The mutable state of a client instance: the stored bearer token.  The
constructor stores a str-or-None argument; login may overwrite it with
any JSON-derived value taken from the response body. -/
structure ClientState where
  token : Option Json

/-- AetherClient construction with an optional token argument. -/
def mkClient (token : Option String) : ClientState :=
  ⟨token.map Json.str⟩

/-- AetherClient.set_token. -/
def set_token (_st : ClientState) (t : String) : ClientState :=
  ⟨some (Json.str t)⟩

/-- The JSON request body sent by AetherClient.login. -/
def login_request_body (username password : String) : Json :=
  Json.obj [("username", Json.str username), ("password", Json.str password)]

/-- AetherClient.login / AetherAsyncClient.login, given the HTTP response
to the POST /api/auth/login request: normalize the response; when the
result is a dict containing a "token" key, store that value as the
bearer token; return the result unchanged.  On an exception the state is
left as it was. -/
def login (st : ClientState) (r : Response) : ClientState × Except PyExc Json :=
  match handle_response r with
  | .error e => (st, .error e)
  | .ok result =>
    match result with
    | Json.obj kvs =>
      match dictGet kvs "token" with
      | some t => (⟨some t⟩, .ok result)
      | none => (st, .ok result)
    | _ => (st, .ok result)

mutual

/-- Python repr applied to a json.loads value (approximate: string
escaping inside repr is not modelled; no value exercised below is
affected). -/
def pyRepr : Json → String
  | .null => "None"
  | .bool true => "True"
  | .bool false => "False"
  | .num n => toString n
  | .str s => "'" ++ s ++ "'"
  | .arr xs => "[" ++ pyReprList xs ++ "]"
  | .obj kvs => "\x7b" ++ pyReprFields kvs ++ "\x7d"

/-- Comma-joined reprs of list elements. -/
def pyReprList : List Json → String
  | [] => ""
  | [x] => pyRepr x
  | x :: xs => pyRepr x ++ ", " ++ pyReprList xs

/-- Comma-joined reprs of dict items. -/
def pyReprFields : List (String × Json) → String
  | [] => ""
  | [kv] => "'" ++ kv.1 ++ "': " ++ pyRepr kv.2
  | kv :: kvs => "'" ++ kv.1 ++ "': " ++ pyRepr kv.2 ++ ", " ++ pyReprFields kvs

end

/-- Python str applied to a json.loads value, as used by the f-string
Bearer interpolation. -/
def pyStr : Json → String
  | .str s => s
  | j => pyRepr j

/-- AetherClient.headers / AetherAsyncClient.headers: start from an empty
dict; attach an Authorization field when the stored token is truthy. -/
def headers (st : ClientState) : List (String × String) :=
  match st.token with
  | some t => if t.truthy then [("Authorization", "Bearer " ++ pyStr t)] else []
  | none => []

/-- The transport helpers (AetherClient methods named with one leading
underscore: get, post, put, patch, delete): send the request with the
headers built from the current state and normalize the response.  None
of them writes the token field, so the state passes through
unchanged. -/
def requestOp (st : ClientState) (r : Response) : ClientState × Except PyExc Json :=
  (st, handle_response r)

/-! ### Event stream reading (events.py, subscribe_events)

The source iterates over SSE records produced by the external httpx_sse
library and, for each record with non-empty data, yields the JSON-decoded
value, silently skipping records whose data fails to decode.  The
line-to-record reassembly itself is not code under src/: it lives in the
transport layer the source delegates to.  It is modelled below from the
spec (section 4.2). -/

/-- The five characters of the SSE data field name followed by the colon. -/
def dataField : List Char := ['d', 'a', 't', 'a', ':']

/-- Modelled from the spec: extraction of the payload of one SSE protocol
line.  A line beginning with the data field prefix carries the text after
the prefix; per the SSE field syntax the spec defers to, a single leading
space is removed from the field value when present.  Any other line
carries no payload. -/
def sseLineData (line : List Char) : Option (List Char) :=
  if line.take 5 = dataField then
    match line.drop 5 with
    | ' ' :: r => some r
    | r => some r
  else none

/-- Modelled from the spec: one step of the per-line record-assembly state
machine of section 4.2, missing from src/ (the Python source delegates it
to the external httpx_sse transport).  The state is the accumulated data
buffer; the step returns the new buffer and the records completed by this
line.  A data line appends its payload directly to the buffer, with no
separator inserted; a blank line completes the buffered record when the
buffer is non-empty and is a no-op otherwise; any other line leaves the
buffer alone. -/
def sseStep (buf line : List Char) : List Char × List (List Char) :=
  match sseLineData line with
  | some payload => (buf ++ payload, [])
  | none =>
    if line = [] then
      if buf = [] then (buf, []) else ([], [buf])
    else (buf, [])

/-- Modelled from the spec: run the record-assembly machine over a finite
line sequence, starting from an empty buffer, collecting the completed
records in order.  A buffer left incomplete at the end of the sequence
produces no record. -/
def sseRecords (lines : List (List Char)) : List (List Char) :=
  (lines.foldl
    (fun acc line =>
      let st := sseStep acc.1 line
      (st.1, acc.2 ++ st.2))
    ([], [])).2

/-- The record-processing loop of subscribe_events in events.py: for each
record, when its data is non-empty, JSON-decode it and emit the decoded
event; a decode failure emits nothing and the loop continues. -/
def processRecords (records : List (List Char)) : List Json :=
  records.filterMap (fun d => if d = [] then none else decodeJsonChars d)

/-- subscribe_events from events.py composed with the spec-modelled line
reassembly: the events emitted to the consumer for a finite sequence of
SSE protocol lines. -/
def subscribe_events (lines : List String) : List Json :=
  processRecords (sseRecords (lines.map String.data))

/-! ### Filesystem path encoding (namespaces.py, FSNamespace and
AsyncFSNamespace) -/

/-- A byte urllib.parse.quote never encodes, with the safe set empty:
digits, ASCII letters, and the four marks minus, dot, underscore,
tilde. -/
def isUnreservedByte (b : Nat) : Bool :=
  decide ((48 ≤ b ∧ b ≤ 57) ∨ (65 ≤ b ∧ b ≤ 90) ∨ (97 ≤ b ∧ b ≤ 122) ∨
    b = 45 ∨ b = 46 ∨ b = 95 ∨ b = 126)

/-- Uppercase hexadecimal digit, as used by urllib.parse.quote. -/
def hexUpper (n : Nat) : Char :=
  match n with
  | 0 => '0' | 1 => '1' | 2 => '2' | 3 => '3' | 4 => '4'
  | 5 => '5' | 6 => '6' | 7 => '7' | 8 => '8' | 9 => '9'
  | 10 => 'A' | 11 => 'B' | 12 => 'C' | 13 => 'D' | 14 => 'E'
  | _ => 'F'

/-- Encoding of one byte by urllib.parse.quote with the safe set empty:
unreserved bytes stand for themselves, every other byte becomes a percent
escape. -/
def quoteByte (b : Nat) : List Char :=
  if isUnreservedByte b then [Char.ofNat b]
  else ['%', hexUpper (b / 16), hexUpper (b % 16)]

/-- UTF-8 encoding of one character, as byte values. -/
def utf8Bytes (c : Char) : List Nat :=
  let n := c.toNat
  if n < 128 then [n]
  else if n < 2048 then [192 + n / 64, 128 + n % 64]
  else if n < 65536 then [224 + n / 4096, 128 + (n / 64) % 64, 128 + n % 64]
  else [240 + n / 262144, 128 + (n / 4096) % 64, 128 + (n / 64) % 64, 128 + n % 64]

/-- urllib.parse.quote(path, safe=empty string): UTF-8 encode the string
and percent-encode every byte outside the unreserved set, with no
character exempted as safe. -/
def quote_no_safe (s : String) : String :=
  String.mk (((s.data.map utf8Bytes).flatten.map quoteByte).flatten)

/-- FSNamespace.read / AsyncFSNamespace.read: the request URL path. -/
def fs_read_path (path : String) : String :=
  "/api/v1/fs/" ++ quote_no_safe path

/-- FSNamespace.write / AsyncFSNamespace.write: the request URL path. -/
def fs_write_path (path : String) : String :=
  "/api/v1/fs/" ++ quote_no_safe path

/-- FSNamespace.delete / AsyncFSNamespace.delete: the request URL path. -/
def fs_delete_path (path : String) : String :=
  "/api/v1/fs/" ++ quote_no_safe path

/-! ### Shape predicates used to state the amended claims -/

/-- The body shapes on which the error branch of handle_response runs to
completion: the parsed body is absent, not a dict, or a dict whose
top-level "error" value, when present, is itself a dict.  On any other
shape the source raises AttributeError instead of AetherError. -/
def errorShapeOk (parsed : Option Json) : Bool :=
  match parsed with
  | some (Json.obj kvs) =>
    match dictGet kvs "error" with
    | some (Json.obj _) => true
    | some _ => false
    | none => true
  | _ => true

/-- The application-level error field the source manages to read on the
error branch: the value of error.message or error.code when the parsed
body is a dict whose "error" value is a dict containing the key, else
nothing. -/
def errOpt (parsed : Option Json) (key : String) : Option Json :=
  match parsed with
  | some (Json.obj kvs) =>
    match dictGet kvs "error" with
    | some (Json.obj ekvs) => dictGet ekvs key
    | _ => none
  | _ => none

/-! ### Helper lemmas -/

lemma truthy_str (s : String) (h : s ≠ "") : (Json.str s).truthy = true := by
  simp [Json.truthy, h]

lemma ne_empty_of_append (s t : String) (h : 0 < s.length) : s ++ t ≠ "" := by
  intro he
  have h2 : (s ++ t).length = 0 := by rw [he]; rfl
  rw [String.length_append] at h2
  omega

lemma http_fallback_message_ne (status : Nat) (reason : String) :
    http_fallback_message status reason ≠ "" := by
  unfold http_fallback_message
  apply ne_empty_of_append
  rw [String.length_append, String.length_append]
  have h5 : ("HTTP " : String).length = 5 := rfl
  omega

lemma http_fallback_code_ne (status : Nat) : http_fallback_code status ≠ "" := by
  unfold http_fallback_code
  apply ne_empty_of_append
  decide

lemma py_or_truthy (x : Option Json) (fb : String) (h : fb ≠ "") :
    (py_or x fb).truthy = true := by
  unfold py_or
  cases x with
  | none => exact truthy_str fb h
  | some v =>
    by_cases hv : v.truthy = true
    · simp [hv]
    · simp [hv]
      exact truthy_str fb h

lemma error_lookup_eq (parsed : Option Json) (key : String)
    (h : errorShapeOk parsed = true) :
    error_lookup parsed key = .ok (errOpt parsed key) := by
  cases parsed with
  | none => rfl
  | some j =>
    cases j with
    | obj kvs =>
      cases he : dictGet kvs "error" with
      | none => simp [error_lookup, errOpt, he, dictGet]
      | some ev =>
        cases ev with
        | obj ekvs => simp [error_lookup, errOpt, he]
        | null => simp [errorShapeOk, he] at h
        | bool b => simp [errorShapeOk, he] at h
        | num n => simp [errorShapeOk, he] at h
        | str s => simp [errorShapeOk, he] at h
        | arr xs => simp [errorShapeOk, he] at h
    | null => rfl
    | bool b => rfl
    | num n => rfl
    | str s => rfl
    | arr xs => rfl

lemma handle_response_error_eq (r : Response)
    (hsf : is_success r.status = false)
    (hshape : errorShapeOk (decodeJson r.body) = true) :
    handle_response r = .error (.aether
      (py_or (errOpt (decodeJson r.body) "message")
        (http_fallback_message r.status r.reasonPhrase))
      (py_or (errOpt (decodeJson r.body) "code")
        (http_fallback_code r.status)) r.status) := by
  unfold handle_response
  rw [hsf]
  simp [error_lookup_eq _ _ hshape]

/-- C1: for a 2xx response whose body parses to j, handle_response returns
the value of the top-level "data" key when j is a dict containing one,
and j itself otherwise, including when j is not a dict; nesting is never
inspected. -/
theorem spec_C1 (r : Response) (j : Json)
    (hs : is_success r.status = true) (hj : decodeJson r.body = some j) :
    (∀ kvs v, j = Json.obj kvs → dictGet kvs "data" = some v →
      handle_response r = .ok v) ∧
    (∀ kvs, j = Json.obj kvs → dictGet kvs "data" = none →
      handle_response r = .ok j) ∧
    ((∀ kvs, j ≠ Json.obj kvs) → handle_response r = .ok j) := by
  refine ⟨?_, ?_, ?_⟩
  · intro kvs v hkv hv
    subst hkv
    simp [handle_response, hs, hj, hv]
  · intro kvs hkv hv
    subst hkv
    simp [handle_response, hs, hj, hv]
  · intro hne
    cases j with
    | obj kvs => exact absurd rfl (hne kvs)
    | null => simp [handle_response, hs, hj]
    | bool b => simp [handle_response, hs, hj]
    | num n => simp [handle_response, hs, hj]
    | str s => simp [handle_response, hs, hj]
    | arr xs => simp [handle_response, hs, hj]

theorem spec_C1_witness :
    handle_response ⟨200, "OK", "\x7b\"data\": [1], \"meta\": 3\x7d"⟩
      = .ok (.arr [.num 1]) ∧
    handle_response ⟨200, "OK", "\x7b\"inner\": \x7b\"data\": 1\x7d\x7d"⟩
      = .ok (.obj [("inner", .obj [("data", .num 1)])]) := by
  constructor
  · exact (spec_C1 ⟨200, "OK", "\x7b\"data\": [1], \"meta\": 3\x7d"⟩
      (.obj [("data", .arr [.num 1]), ("meta", .num 3)])
      (by decide) rfl).1 _ _ rfl rfl
  · exact (spec_C1 ⟨200, "OK", "\x7b\"inner\": \x7b\"data\": 1\x7d\x7d"⟩
      (.obj [("inner", .obj [("data", .num 1)])])
      (by decide) rfl).2.1 _ rfl rfl

/-- C2 (amended): for a 400-599 response whose body fails to parse as
JSON, parses as a non-dict, or parses as a dict whose top-level "error"
value, when present, is itself a dict, the normalizer raises an
AetherError carrying the response status, a message equal to the
application-level error.message when that field is present and truthy
and otherwise the HTTP-level fallback, and a code equal to error.code
when present and truthy and otherwise the HTTP-level fallback: the three
per-field conjuncts for each of message and code cover every such body,
since the field read by the source (errOpt) is either absent, or a
present truthy value, or a present falsy value. -/
theorem spec_C2 (r : Response) (h4 : 400 ≤ r.status) (h5 : r.status ≤ 599)
    (hshape : errorShapeOk (decodeJson r.body) = true) :
    ∃ m c,
      handle_response r = .error (.aether m c r.status) ∧
      (∀ v, errOpt (decodeJson r.body) "message" = some v → v.truthy = true →
        m = v) ∧
      (∀ v, errOpt (decodeJson r.body) "message" = some v → v.truthy = false →
        m = .str (http_fallback_message r.status r.reasonPhrase)) ∧
      (errOpt (decodeJson r.body) "message" = none →
        m = .str (http_fallback_message r.status r.reasonPhrase)) ∧
      (∀ v, errOpt (decodeJson r.body) "code" = some v → v.truthy = true →
        c = v) ∧
      (∀ v, errOpt (decodeJson r.body) "code" = some v → v.truthy = false →
        c = .str (http_fallback_code r.status)) ∧
      (errOpt (decodeJson r.body) "code" = none →
        c = .str (http_fallback_code r.status)) := by
  have hsf : is_success r.status = false := by
    simp [is_success]
    omega
  refine ⟨_, _, handle_response_error_eq r hsf hshape, ?_, ?_, ?_, ?_, ?_, ?_⟩
  · intro v hv htr
    simp [py_or, hv, htr]
  · intro v hv htr
    simp [py_or, hv, htr]
  · intro hv
    simp [py_or, hv]
  · intro v hv htr
    simp [py_or, hv, htr]
  · intro v hv htr
    simp [py_or, hv, htr]
  · intro hv
    simp [py_or, hv]

/-- C2 counterexample to the claim as stated: first, a 400 response whose
body is a dict with error.message present but equal to the empty string
yields the HTTP-level fallback message, not the present error.message
(the source tests truthiness, not presence); second, a 400 response whose
top-level "error" value is a string raises AttributeError rather than any
AetherError. -/
theorem spec_C2_cex :
    handle_response ⟨400, "Bad Request",
        "\x7b\"error\": \x7b\"code\":\"X\",\"message\":\"\"\x7d\x7d"⟩
      = .error (.aether (.str "HTTP 400: Bad Request") (.str "X") 400) ∧
    handle_response ⟨400, "Bad Request", "\x7b\"error\": \"oops\"\x7d"⟩
      = .error .attributeError := by
  exact ⟨rfl, rfl⟩

theorem spec_C2_witness :
    handle_response ⟨404, "Not Found",
        "\x7b\"error\": \x7b\"code\":\"AGENT_NOT_FOUND\",\"message\":\"No such agent\"\x7d\x7d"⟩
      = .error (.aether (.str "No such agent") (.str "AGENT_NOT_FOUND") 404) ∧
    handle_response ⟨500, "Internal Server Error", "Internal Server Error"⟩
      = .error (.aether (.str "HTTP 500: Internal Server Error")
          (.str "HTTP_500") 500) ∧
    handle_response ⟨502, "Bad Gateway", "\x7b\"error\": \x7b\"code\":\"X\"\x7d\x7d"⟩
      = .error (.aether (.str "HTTP 502: Bad Gateway") (.str "X") 502) ∧
    handle_response ⟨400, "Bad Request", "[1, 2]"⟩
      = .error (.aether (.str "HTTP 400: Bad Request") (.str "HTTP_400") 400) := by
  refine ⟨?_, ?_, ?_, ?_⟩
  · obtain ⟨m, c, heq, hmt, _, _, hct, _, _⟩ := spec_C2 ⟨404, "Not Found",
        "\x7b\"error\": \x7b\"code\":\"AGENT_NOT_FOUND\",\"message\":\"No such agent\"\x7d\x7d"⟩
      (by decide) (by decide) (by decide)
    rw [heq, hmt (.str "No such agent") rfl (by decide),
      hct (.str "AGENT_NOT_FOUND") rfl (by decide)]
  · obtain ⟨m, c, heq, _, _, hmn, _, _, hcn⟩ :=
      spec_C2 ⟨500, "Internal Server Error", "Internal Server Error"⟩
        (by decide) (by decide) (by decide)
    rw [heq, hmn rfl, hcn rfl]
    rfl
  · obtain ⟨m, c, heq, _, _, hmn, hct, _, _⟩ :=
      spec_C2 ⟨502, "Bad Gateway", "\x7b\"error\": \x7b\"code\":\"X\"\x7d\x7d"⟩
        (by decide) (by decide) (by decide)
    rw [heq, hmn rfl, hct (.str "X") rfl (by decide)]
    rfl
  · obtain ⟨m, c, heq, _, _, hmn, _, _, hcn⟩ :=
      spec_C2 ⟨400, "Bad Request", "[1, 2]"⟩
        (by decide) (by decide) (by decide)
    rw [heq, hmn rfl, hcn rfl]
    rfl

/-- C3 (amended): for a non-2xx response whose parsed body, when a dict,
has a top-level "error" value that is absent or itself a dict, the
normalizer raises an AetherError carrying the response status and truthy
(in particular non-empty) message and code values, and no other exception
escapes on such bodies. -/
theorem spec_C3 (r : Response) (hsf : is_success r.status = false)
    (hshape : errorShapeOk (decodeJson r.body) = true) :
    ∃ m c, handle_response r = .error (.aether m c r.status) ∧
      m.truthy = true ∧ c.truthy = true := by
  refine ⟨_, _, handle_response_error_eq r hsf hshape, ?_, ?_⟩
  · exact py_or_truthy _ _ (http_fallback_message_ne r.status r.reasonPhrase)
  · exact py_or_truthy _ _ (http_fallback_code_ne r.status)

/-- C3 counterexample to the claim as stated: a 404 response whose body
is a dict whose top-level "error" value is null makes the source raise
AttributeError (calling .get on None), so a non-AetherError exception
escapes normalization. -/
theorem spec_C3_cex :
    handle_response ⟨404, "Not Found", "\x7b\"error\": null\x7d"⟩
      = .error .attributeError := by
  exact rfl

theorem spec_C3_witness :
    ∃ m c,
      handle_response ⟨503, "Service Unavailable", ""⟩
        = .error (.aether m c 503) ∧ m.truthy = true ∧ c.truthy = true := by
  exact spec_C3 ⟨503, "Service Unavailable", ""⟩ (by decide) (by decide)

/-- C4: a record whose accumulated data fails to JSON-decode produces no
event and no error, and processing continues with the surrounding
records; concretely, the four lines of the claim yield exactly the one
event of type "valid". -/
theorem spec_C4 :
    (∀ (before after : List (List Char)) (d : List Char),
      decodeJsonChars d = none →
      processRecords (before ++ d :: after) = processRecords (before ++ after)) ∧
    subscribe_events ["data: \x7bbad", "", "data: \x7b\"type\":\"valid\"\x7d", ""]
      = [.obj [("type", .str "valid")]] := by
  constructor
  · intro before after d hd
    have hnone : (if d = [] then none else decodeJsonChars d) = (none : Option Json) := by
      split <;> simp [hd]
    simp [processRecords, List.filterMap_append, List.filterMap_cons, hnone]
  · rfl

theorem spec_C4_witness :
    processRecords ["\x7bbad".data] = processRecords [] := by
  exact spec_C4.1 [] [] "\x7bbad".data rfl

/-- C5: when every record is non-empty and decodes, the reader emits
exactly one event per record, in input order; concretely, the four lines
of the claim yield the events of type "a" and "b" in that order. -/
theorem spec_C5 :
    (∀ (ds : List (List Char)) (js : List Json),
      List.Forall₂ (fun d j => d ≠ [] ∧ decodeJsonChars d = some j) ds js →
      processRecords ds = js) ∧
    subscribe_events
        ["data: \x7b\"type\":\"a\"\x7d", "", "data: \x7b\"type\":\"b\"\x7d", ""]
      = [.obj [("type", .str "a")], .obj [("type", .str "b")]] := by
  constructor
  · intro ds js h
    induction h with
    | nil => rfl
    | cons hdj _ ih =>
      simp only [processRecords, List.filterMap_cons] at *
      rw [hdj.2]
      simp [hdj.1, ih]
  · rfl

theorem spec_C5_witness :
    processRecords ["\x7b\"type\":\"a\"\x7d".data, "\x7b\"type\":\"b\"\x7d".data]
      = [.obj [("type", .str "a")], .obj [("type", .str "b")]] := by
  exact spec_C5.1 _ _
    (.cons ⟨by decide, rfl⟩ (.cons ⟨by decide, rfl⟩ .nil))

/-- C6: consecutive data lines of one record concatenate their payloads
directly into the buffer, with no separator inserted; concretely, the
three lines of the claim assemble the record equal to the plain
concatenation of the two payloads and yield exactly the one decoded
event with the type and payload fields. -/
theorem spec_C6 :
    (∀ buf p, sseStep buf (dataField ++ ' ' :: p) = (buf ++ p, [])) ∧
    sseRecords (["data: \x7b\"type\": \"big\",", "data:  \"payload\": \"hello\"\x7d", ""].map
        String.data)
      = ["\x7b\"type\": \"big\", \"payload\": \"hello\"\x7d".data] ∧
    "\x7b\"type\": \"big\", \"payload\": \"hello\"\x7d".data
      = "\x7b\"type\": \"big\",".data ++ " \"payload\": \"hello\"\x7d".data ∧
    subscribe_events
        ["data: \x7b\"type\": \"big\",", "data:  \"payload\": \"hello\"\x7d", ""]
      = [.obj [("type", .str "big"), ("payload", .str "hello")]] := by
  refine ⟨?_, rfl, rfl, rfl⟩
  intro buf p
  have ht : (dataField ++ ' ' :: p).take 5 = dataField :=
    List.take_left dataField (' ' :: p)
  have hd : (dataField ++ ' ' :: p).drop 5 = ' ' :: p :=
    List.drop_left dataField (' ' :: p)
  simp [sseStep, sseLineData, ht, hd]

lemma handle_response_nodata (r : Response) (kvs : List (String × Json))
    (hs : is_success r.status = true)
    (hj : decodeJson r.body = some (Json.obj kvs))
    (hd : dictGet kvs "data" = none) :
    handle_response r = .ok (Json.obj kvs) := by
  simp [handle_response, hs, hj, hd]

/-- C7: a successful login whose body is a dict with a "token" key and no
"data" key stores the token value as the bearer token and returns the
full parsed body unchanged, whatever token was held before. -/
theorem spec_C7 (st : ClientState) (r : Response)
    (kvs : List (String × Json)) (t : Json)
    (hs : is_success r.status = true)
    (hj : decodeJson r.body = some (Json.obj kvs))
    (hd : dictGet kvs "data" = none)
    (ht : dictGet kvs "token" = some t) :
    login st r = (⟨some t⟩, .ok (Json.obj kvs)) := by
  simp [login, handle_response_nodata r kvs hs hj hd, ht]

theorem spec_C7_witness :
    login ⟨none⟩ ⟨200, "OK", "\x7b\"token\":\"jwt-1\",\"user\":\x7b\"id\":\"u1\"\x7d\x7d"⟩
      = (⟨some (.str "jwt-1")⟩,
        .ok (.obj [("token", .str "jwt-1"), ("user", .obj [("id", .str "u1")])])) ∧
    login_request_body "admin" "secret"
      = .obj [("username", .str "admin"), ("password", .str "secret")] := by
  constructor
  · exact spec_C7 ⟨none⟩
      ⟨200, "OK", "\x7b\"token\":\"jwt-1\",\"user\":\x7b\"id\":\"u1\"\x7d\x7d"⟩
      [("token", .str "jwt-1"), ("user", .obj [("id", .str "u1")])]
      (.str "jwt-1") (by decide) rfl rfl rfl
  · rfl

lemma hexUpper_ne_slash (n : Nat) : hexUpper n ≠ '/' := by
  unfold hexUpper
  split <;> decide

lemma quoteByte_no_slash_small : ∀ b : Fin 127, '/' ∉ quoteByte b.1 := by
  decide

lemma quoteByte_no_slash (b : Nat) : '/' ∉ quoteByte b := by
  by_cases hb : b < 127
  · exact quoteByte_no_slash_small ⟨b, hb⟩
  · have hu : isUnreservedByte b = false := by
      simp [isUnreservedByte]
      omega
    intro hmem
    simp [quoteByte, hu, List.mem_cons, List.not_mem_nil] at hmem
    rcases hmem with h | h
    · exact hexUpper_ne_slash (b / 16) h.symm
    · exact hexUpper_ne_slash (b % 16) h.symm

/-- C8: the filesystem read, write and delete operations place the path
argument in the URL percent-encoded with no character exempted as safe:
no raw slash ever survives encoding, and the concrete path of the claim
encodes its slash as %2F. -/
theorem spec_C8 :
    (∀ path : String, ('/' : Char) ∉ (quote_no_safe path).data) ∧
    fs_read_path "folder/file.txt" = "/api/v1/fs/folder%2Ffile.txt" ∧
    fs_write_path "folder/file.txt" = "/api/v1/fs/folder%2Ffile.txt" ∧
    fs_delete_path "folder/file.txt" = "/api/v1/fs/folder%2Ffile.txt" := by
  refine ⟨?_, rfl, rfl, rfl⟩
  intro path hmem
  have hm : ('/' : Char) ∈ ((path.data.map utf8Bytes).flatten.map quoteByte).flatten := hmem
  rw [List.mem_flatten] at hm
  obtain ⟨l, hl, hcl⟩ := hm
  rw [List.mem_map] at hl
  obtain ⟨b, _, rfl⟩ := hl
  exact quoteByte_no_slash b hcl

/-- C9 counterexample to the claim as stated: a client constructed with
the empty-string token holds a set (non-None) token, yet its request
headers omit Authorization entirely, because the source guards the
header on the truthiness of the token, not on its presence. -/
theorem spec_C9_cex :
    mkClient (some "") = ⟨some (Json.str "")⟩ ∧
    (mkClient (some "")).token ≠ none ∧
    headers (mkClient (some "")) = [] := by
  exact ⟨rfl, Option.some_ne_none _, rfl⟩

/-- C9 (amended): the request headers contain Authorization with value
"Bearer " followed by the token exactly when the stored token is set and
truthy (for a string token: non-empty); with no token, or a falsy one,
the Authorization header is omitted entirely. -/
theorem spec_C9 (st : ClientState) :
    (∀ t, st.token = some t → t.truthy = true →
      headers st = [("Authorization", "Bearer " ++ pyStr t)]) ∧
    (st.token = none → headers st = []) ∧
    (∀ t, st.token = some t → t.truthy = false → headers st = []) := by
  refine ⟨?_, ?_, ?_⟩
  · intro t ht htr
    simp [headers, ht, htr]
  · intro ht
    simp [headers, ht]
  · intro t ht htr
    simp [headers, ht, htr]

theorem spec_C9_witness :
    headers ⟨some (.str "test-token-123")⟩
      = [("Authorization", "Bearer test-token-123")] ∧
    headers ⟨none⟩ = [] := by
  constructor
  · exact (spec_C9 ⟨some (.str "test-token-123")⟩).1 _ rfl (by decide)
  · exact (spec_C9 ⟨none⟩).2.1 rfl

/-- C10: an erroring operation leaves the stored token unchanged: login
keeps the prior state whenever normalization raises (an AetherError in
particular), a successful login whose result dict lacks a "token" key
keeps the prior state too, and the plain transport operations never touch
the state at all. -/
theorem spec_C10 (st : ClientState) (r : Response) :
    (∀ e, (login st r).2 = .error e → (login st r).1 = st) ∧
    (∀ res kvs, handle_response r = .ok res → res = Json.obj kvs →
      dictGet kvs "token" = none → login st r = (st, .ok res)) ∧
    requestOp st r = (st, handle_response r) := by
  refine ⟨?_, ?_, rfl⟩
  · intro e hlog
    unfold login at hlog ⊢
    cases hh : handle_response r with
    | error e2 => simp
    | ok result =>
      rw [hh] at hlog
      cases result <;> simp_all
      split at hlog <;> simp at hlog
  · intro res kvs hres hkv hnt
    subst hkv
    simp [login, hres, hnt]

theorem spec_C10_witness :
    (login ⟨some (.str "old")⟩
      ⟨401, "Unauthorized",
        "\x7b\"error\": \x7b\"code\":\"UNAUTHORIZED\",\"message\":\"Invalid token\"\x7d\x7d"⟩).1
      = ⟨some (.str "old")⟩ ∧
    login ⟨some (.str "old")⟩ ⟨200, "OK", "\x7b\"user\": \x7b\"id\":\"u1\"\x7d\x7d"⟩
      = (⟨some (.str "old")⟩, .ok (.obj [("user", .obj [("id", .str "u1")])])) := by
  constructor
  · exact (spec_C10 ⟨some (.str "old")⟩
      ⟨401, "Unauthorized",
        "\x7b\"error\": \x7b\"code\":\"UNAUTHORIZED\",\"message\":\"Invalid token\"\x7d\x7d"⟩).1
      (.aether (.str "Invalid token") (.str "UNAUTHORIZED") 401) rfl
  · exact (spec_C10 ⟨some (.str "old")⟩
      ⟨200, "OK", "\x7b\"user\": \x7b\"id\":\"u1\"\x7d\x7d"⟩).2.1
      _ [("user", .obj [("id", .str "u1")])] rfl rfl rfl
